import Mathlib

/-!
Verification of the crossbar example script (`ql/arch/crossbar/example.py`).

The script is straight-line glue code: it sets four compiler options,
constructs a `Platform`, a `Program` and a `Kernel`, appends six gate
invocations to the kernel, adds the kernel to the program and calls
`compile()`.  We embed it as the trace of external-library calls it emits,
parameterised by the value of Python's `__file__` for the script.
-/

/-- Drop every trailing `/` character from a character list
(the `rstrip('/')` step of `posixpath.dirname`). -/
def dropTrailingSlashes (cs : List Char) : List Char :=
  (cs.reverse.dropWhile (fun c => c = '/')).reverse

/-- Modelled from Python's `posixpath.dirname` (the script runs `os.path.dirname
(__file__)`): everything up to and including the last `/` is kept, then
trailing slashes are stripped unless the head consists only of slashes. -/
def dirname (p : String) : String :=
  let cs := p.toList
  match (cs.reverse.findIdx? (fun c => c = '/')).map (fun j => cs.length - 1 - j) with
  | none => ""
  | some k =>
      let head := cs.take (k + 1)
      if head.all (fun c => c = '/') then String.mk head
      else String.mk (dropTrailingSlashes head)

/-- `a` starts with `b` (character-list version of `str.startswith`). -/
def strStartsWith (a b : String) : Bool :=
  b.toList.isPrefixOf a.toList

/-- `a` ends with `b` (character-list version of `str.endswith`). -/
def strEndsWith (a b : String) : Bool :=
  b.toList.reverse.isPrefixOf a.toList.reverse

/-- Modelled from Python's `posixpath.join` restricted to two arguments (the
script runs `os.path.join(curdir, ...)`): an absolute second component wins,
otherwise the components are glued with a single `/` separator. -/
def joinPath (a b : String) : String :=
  if strStartsWith b "/" then b
  else if a = "" || strEndsWith a "/" then a ++ b
  else a ++ "/" ++ b

/-- One call into the external `openql` library (or, for the last two
constructors, an effect the script could perform itself but does not).
Object-valued arguments are represented by allocation-order handles. -/
inductive LibCall : Type where
  /-- `ql.set_option(key, value)` -/
  | setOption (key value : String)
  /-- `ql.Platform(name, configFile)` -/
  | platformNew (name configFile : String)
  /-- `ql.Program(name, platform, num_qubits, num_creg)` -/
  | programNew (name : String) (platform numQubits numCreg : Nat)
  /-- `ql.Kernel(name, platform, num_qubits, num_creg)` -/
  | kernelNew (name : String) (platform numQubits numCreg : Nat)
  /-- `kernel.gate(name, qubits)` -/
  | gate (kernel : Nat) (name : String) (qubits : List Nat)
  /-- `program.add_kernel(kernel)` -/
  | addKernel (program kernel : Nat)
  /-- `program.compile()` -/
  | compile (program : Nat)
  /-- `program.qasm()` — present only in a commented-out line of the script -/
  | qasmCall (program : Nat)
  /-- `print(...)` to standard output — present only in a commented-out line -/
  | printOut (s : String)
  deriving DecidableEq, Repr

/-- Handle of the one `Platform` object (allocated first). -/
def platformHandle : Nat := 0

/-- Handle of the one `Program` object (allocated second). -/
def programHandle : Nat := 1

/-- Handle of the one `Kernel` object (allocated third). -/
def kernelHandle : Nat := 2

/-- The trace of external-library calls the script makes, line by line, as a
function of the script's `__file__` value.  Mirrors `example.py` top to
bottom: `curdir`, `output_dir` and `config` are computed exactly as in the
source, then the calls are emitted in program order. -/
def scriptTrace (file : String) : List LibCall :=
  let curdir := dirname file
  let output_dir := joinPath curdir "output"
  let num_qubits := 2
  let num_creg := 0
  let config := joinPath curdir "hardware_config_crossbar.json"
  [ .setOption "output_dir" output_dir,
    .setOption "optimize" "no",
    .setOption "scheduler" "ASAP",
    .setOption "log_level" "LOG_DEBUG",
    .platformNew "crossbar" config,
    .programNew "crossbar_test" platformHandle num_qubits num_creg,
    .kernelNew "test" platformHandle num_qubits num_creg,
    .gate kernelHandle "pepez" [0],
    .gate kernelHandle "prepz" [1],
    .gate kernelHandle "x" [0],
    .gate kernelHandle "cnot" [0, 1],
    .gate kernelHandle "shuttle_up" [1],
    .gate kernelHandle "measure" [1],
    .addKernel programHandle kernelHandle,
    .compile programHandle ]

/-- The script reads nothing from its environment except `__file__`; we make
that explicit by running it from an environment that also carries the
process's current working directory, which the script never consults. -/
structure Env : Type where
  file : String
  cwd : String
  deriving DecidableEq, Repr

/-- The trace of the script run in environment `e`. -/
def scriptTraceEnv (e : Env) : List LibCall :=
  scriptTrace e.file

/-- The `(gate name, qubit indices)` pairs of the gate-append calls of a
trace, in order. -/
def gateCalls (t : List LibCall) : List (String × List Nat) :=
  t.filterMap fun c =>
    match c with
    | .gate _ n qs => some (n, qs)
    | _ => none

/-- The `(key, value)` pairs of the `set_option` calls of a trace, in order. -/
def setOptionCalls (t : List LibCall) : List (String × String) :=
  t.filterMap fun c =>
    match c with
    | .setOption k v => some (k, v)
    | _ => none

/-- The `(name, configFile)` arguments of the `Platform` constructions of a
trace, in order. -/
def platformCalls (t : List LibCall) : List (String × String) :=
  t.filterMap fun c =>
    match c with
    | .platformNew n cfg => some (n, cfg)
    | _ => none

/-- The `(name, platform, numQubits, numCreg)` arguments of the `Program`
constructions of a trace, in order. -/
def programCalls (t : List LibCall) : List (String × Nat × Nat × Nat) :=
  t.filterMap fun c =>
    match c with
    | .programNew n p q r => some (n, p, q, r)
    | _ => none

/-- The `(name, platform, numQubits, numCreg)` arguments of the `Kernel`
constructions of a trace, in order. -/
def kernelCalls (t : List LibCall) : List (String × Nat × Nat × Nat) :=
  t.filterMap fun c =>
    match c with
    | .kernelNew n p q r => some (n, p, q, r)
    | _ => none

/-- The filesystem paths a trace passes to the library: the value of the
`output_dir` option and the `Platform` configuration-file path, in order. -/
def pathArgs (t : List LibCall) : List String :=
  t.filterMap fun c =>
    match c with
    | .setOption k v => if k = "output_dir" then some v else none
    | .platformNew _ cfg => some cfg
    | _ => none

/-- Phase of a call in the script's four-phase shape: options, object
construction, gate appends, finalisation (`add_kernel` / `compile`). -/
def phaseOf (c : LibCall) : Nat :=
  match c with
  | .setOption _ _ => 0
  | .platformNew _ _ => 1
  | .programNew _ _ _ _ => 1
  | .kernelNew _ _ _ _ => 1
  | .gate _ _ _ => 2
  | .addKernel _ _ => 3
  | .compile _ => 3
  | .qasmCall _ => 4
  | .printOut _ => 4

/-- Whether a call is `program.compile()`. -/
def isCompile (c : LibCall) : Bool :=
  match c with
  | .compile _ => true
  | _ => false

/-- Whether a call is `program.qasm()`. -/
def isQasm (c : LibCall) : Bool :=
  match c with
  | .qasmCall _ => true
  | _ => false

/-- Whether a call prints to standard output. -/
def isPrintOut (c : LibCall) : Bool :=
  match c with
  | .printOut _ => true
  | _ => false

/-- Execute a list of calls against an oracle that decides, for each external
call, whether it succeeds or raises: execution is strictly sequential and
stops at the first raised exception, which is returned unchanged — exactly
the behaviour of straight-line Python with no `try`/`except`. -/
def runCalls {E : Type} (oracle : LibCall → Except E Unit) : List LibCall → Except E Unit
  | [] => .ok ()
  | c :: rest =>
      match oracle c with
      | .ok _ => runCalls oracle rest
      | .error e => .error e

/-- Run the whole script against an oracle for the external library. -/
def runScript {E : Type} (file : String) (oracle : LibCall → Except E Unit) :
    Except E Unit :=
  runCalls oracle (scriptTrace file)

/-! ### General lemmas about sequential execution -/

/-- Sequential execution succeeds exactly when every call succeeds. -/
theorem runCalls_ok_iff {E : Type} (oracle : LibCall → Except E Unit) (l : List LibCall) :
    runCalls oracle l = .ok () ↔ ∀ c ∈ l, oracle c = .ok () := by
  induction l with
  | nil => simp [runCalls]
  | cons a r ih =>
      cases h : oracle a with
      | ok u =>
          cases u
          simp [runCalls, h, ih]
      | error e =>
          simp [runCalls, h]

/-- Sequential execution raises `e` exactly when some call raises `e` and all
calls before it succeed; the raised exception is returned unchanged. -/
theorem runCalls_error_iff {E : Type} (oracle : LibCall → Except E Unit) (l : List LibCall)
    (e : E) :
    runCalls oracle l = .error e ↔
      ∃ pre c suf, l = pre ++ c :: suf ∧ oracle c = .error e ∧
        ∀ d ∈ pre, oracle d = .ok () := by
  induction l with
  | nil =>
      simp [runCalls]
  | cons a r ih =>
      cases h : oracle a with
      | ok u =>
          cases u
          rw [show runCalls oracle (a :: r) = runCalls oracle r from by simp [runCalls, h], ih]
          constructor
          · rintro ⟨pre, c, suf, rfl, hc, hpre⟩
            exact ⟨a :: pre, c, suf, rfl, hc, by
              intro d hd
              rcases List.mem_cons.mp hd with rfl | hd
              · exact h
              · exact hpre d hd⟩
          · rintro ⟨pre, c, suf, heq, hc, hpre⟩
            cases pre with
            | nil =>
                simp at heq
                obtain ⟨rfl, rfl⟩ := heq
                rw [h] at hc
                exact absurd hc (by simp)
            | cons p pre' =>
                simp at heq
                obtain ⟨rfl, heq⟩ := heq
                exact ⟨pre', c, suf, heq, hc, fun d hd => hpre d (by simp [hd])⟩
      | error e' =>
          rw [show runCalls oracle (a :: r) = .error e' from by simp [runCalls, h]]
          constructor
          · intro he
            have he' : e' = e := by simpa using he
            subst he'
            exact ⟨[], a, r, rfl, h, by simp⟩
          · rintro ⟨pre, c, suf, heq, hc, hpre⟩
            cases pre with
            | nil =>
                simp at heq
                obtain ⟨rfl, rfl⟩ := heq
                rw [h] at hc
                simpa using hc
            | cons p pre' =>
                simp at heq
                obtain ⟨rfl, heq⟩ := heq
                have ha := hpre a (by simp)
                rw [h] at ha
                exact absurd ha (by simp)

/-! ### The claims -/

/-- C1: the script appends exactly six gate invocations, each once, in the
order pepez [0], prepz [1], x [0], cnot [0,1], shuttle_up [1], measure [1];
the first gate name passed is the literal "pepez" (not "prepz"), and the
gate-name vocabulary is exactly pepez, prepz, x, cnot, shuttle_up, measure. -/
theorem c1_gate_sequence (file : String) :
    gateCalls (scriptTrace file) =
      [("pepez", [0]), ("prepz", [1]), ("x", [0]), ("cnot", [0, 1]),
       ("shuttle_up", [1]), ("measure", [1])] ∧
    (gateCalls (scriptTrace file)).map Prod.fst =
      ["pepez", "prepz", "x", "cnot", "shuttle_up", "measure"] ∧
    (gateCalls (scriptTrace file)).head?.map Prod.fst = some "pepez" ∧
    ("pepez" : String) ≠ "prepz" :=
  ⟨rfl, rfl, rfl, by decide⟩

/-- C2: the library calls occur in four phases in order — options, object
construction, gate appends, finalisation — with `compile` invoked exactly
once as the very last call, immediately after `add_kernel`, and no
later-phase call preceding an earlier-phase one. -/
theorem c2_phase_order (file : String) :
    List.Chain' (fun a b => a ≤ b) ((scriptTrace file).map phaseOf) ∧
    (scriptTrace file).countP isCompile = 1 ∧
    (scriptTrace file).getLast? = some (.compile programHandle) ∧
    (scriptTrace file).dropLast.getLast? =
      some (.addKernel programHandle kernelHandle) := by
  refine ⟨?_, rfl, rfl, rfl⟩
  have h : (scriptTrace file).map phaseOf = [0, 0, 0, 0, 1, 1, 1, 2, 2, 2, 2, 2, 2, 3, 3] :=
    rfl
  rw [h]
  simp [List.chain'_cons]

/-- C3: `set_option` is called exactly four times, with exactly the keys and
values: output_dir ↦ the script's directory joined with "output",
optimize ↦ "no", scheduler ↦ "ASAP", log_level ↦ "LOG_DEBUG", and no other
option key is ever set. -/
theorem c3_option_calls (file : String) :
    setOptionCalls (scriptTrace file) =
      [("output_dir", joinPath (dirname file) "output"),
       ("optimize", "no"),
       ("scheduler", "ASAP"),
       ("log_level", "LOG_DEBUG")] :=
  rfl

/-- C4: the Program and the Kernel are both constructed with num_qubits = 2,
and every gate invocation targets only qubit indices strictly below 2. -/
theorem c4_two_qubit_circuit (file : String) :
    (programCalls (scriptTrace file)).map (fun a => a.2.2.1) = [2] ∧
    (kernelCalls (scriptTrace file)).map (fun a => a.2.2.1) = [2] ∧
    (gateCalls (scriptTrace file)).all (fun g => g.2.all (fun q => q < 2)) = true :=
  ⟨rfl, rfl, rfl⟩

/-- C5: the script adds no error handling of its own: it succeeds exactly
when every external call succeeds, and it fails with exception `e` exactly
when some external call raises `e` with all earlier calls succeeding — the
exception propagating out unchanged. -/
theorem c5_error_propagation (E : Type) (file : String)
    (oracle : LibCall → Except E Unit) :
    (runScript file oracle = .ok () ↔ ∀ c ∈ scriptTrace file, oracle c = .ok ()) ∧
    (∀ e : E, runScript file oracle = .error e ↔
      ∃ pre c suf, scriptTrace file = pre ++ c :: suf ∧ oracle c = .error e ∧
        ∀ d ∈ pre, oracle d = .ok ()) :=
  ⟨runCalls_ok_iff oracle (scriptTrace file),
   fun e => runCalls_error_iff oracle (scriptTrace file) e⟩

/-- C6: exactly three library objects are constructed — one Platform, one
Program, one Kernel — and the Platform is constructed with the name
"crossbar" and the configuration path: the script's directory joined with
"hardware_config_crossbar.json". -/
theorem c6_three_objects (file : String) :
    platformCalls (scriptTrace file) =
      [("crossbar", joinPath (dirname file) "hardware_config_crossbar.json")] ∧
    (programCalls (scriptTrace file)).length = 1 ∧
    (kernelCalls (scriptTrace file)).length = 1 :=
  ⟨rfl, rfl, rfl⟩

/-- C7: the script is deterministic given `__file__`: two runs whose
environments agree on `__file__` (whatever their working directories or other
state) produce identical traces of external-library calls. -/
theorem c7_deterministic (e1 e2 : Env) (h : e1.file = e2.file) :
    scriptTraceEnv e1 = scriptTraceEnv e2 := by
  simp [scriptTraceEnv, h]

/-- Witness for C7 at two concrete environments differing only in the
working directory. -/
theorem c7_deterministic_witness :
    scriptTraceEnv ⟨"/repo/ql/arch/crossbar/example.py", "/tmp"⟩ =
      scriptTraceEnv ⟨"/repo/ql/arch/crossbar/example.py", "/home"⟩ :=
  c7_deterministic ⟨"/repo/ql/arch/crossbar/example.py", "/tmp"⟩
    ⟨"/repo/ql/arch/crossbar/example.py", "/home"⟩ rfl

/-- C8: the Program and the Kernel are constructed with the same platform
object (the handle of the one Platform) and the same numeric arguments
num_qubits = 2 and num_creg = 0, so the program declares zero classical
registers. -/
theorem c8_shared_platform (file : String) :
    programCalls (scriptTrace file) = [("crossbar_test", platformHandle, 2, 0)] ∧
    kernelCalls (scriptTrace file) = [("test", platformHandle, 2, 0)] :=
  ⟨rfl, rfl⟩

/-- C9: the script never calls `program.qasm()` and never prints to standard
output (those lines are commented out), so its trace contains no such event
and the only outputs of a successful run are the library's own side effects. -/
theorem c9_no_qasm_no_print (file : String) :
    (scriptTrace file).countP isQasm = 0 ∧
    (scriptTrace file).countP isPrintOut = 0 :=
  ⟨rfl, rfl⟩

/-- C10: both filesystem paths passed to the library — the output_dir value
and the Platform configuration path — are derived from `dirname __file__`,
so runs agreeing on `__file__` but differing in working directory pass
identical paths. -/
theorem c10_paths_from_file (e1 e2 : Env) (h : e1.file = e2.file) :
    pathArgs (scriptTraceEnv e1) =
      [joinPath (dirname e1.file) "output",
       joinPath (dirname e1.file) "hardware_config_crossbar.json"] ∧
    pathArgs (scriptTraceEnv e1) = pathArgs (scriptTraceEnv e2) := by
  refine ⟨rfl, ?_⟩
  simp [scriptTraceEnv, h]

/-- Witness for C10 at two concrete environments differing only in the
working directory. -/
theorem c10_paths_from_file_witness :
    pathArgs (scriptTraceEnv ⟨"/repo/ql/arch/crossbar/example.py", "/tmp"⟩) =
      [joinPath (dirname "/repo/ql/arch/crossbar/example.py") "output",
       joinPath (dirname "/repo/ql/arch/crossbar/example.py")
         "hardware_config_crossbar.json"] ∧
    pathArgs (scriptTraceEnv ⟨"/repo/ql/arch/crossbar/example.py", "/tmp"⟩) =
      pathArgs (scriptTraceEnv ⟨"/repo/ql/arch/crossbar/example.py", "/home"⟩) :=
  c10_paths_from_file ⟨"/repo/ql/arch/crossbar/example.py", "/tmp"⟩
    ⟨"/repo/ql/arch/crossbar/example.py", "/home"⟩ rfl
